import Mathlib

/-!
Shallow embedding of the gommap package (struct-based API in gommap.go,
plus the per-architecture mmap_syscall adapters).

Modelling conventions:
- Go `uintptr` values are natural numbers; arithmetic on them wraps
  modulo 2^w where w is the word width of the platform (64 on
  linux/amd64, 32 on the SYS_MMAP2 architectures).  Every definition is
  parameterized by w; claims about the reference platform instantiate
  w := 64.
- Go `int`/`int64` values are Lean `Int`s; the Go conversion
  `uintptr(i)` is `toUintptr w i` (two's-complement bit truncation read
  as an unsigned number) and the Go conversion `int(i)` is
  `intTrunc w i` (two's-complement bit truncation read as a signed
  number).
- A Go slice header is its (Data, Len) pair; the Cap field always
  mirrors Len in this code and no claim concerns it, so it is omitted.
  The nil slice is the header (0, 0).
- The kernel is an oracle passed in as a function from the issued call
  to the errno it returns (and, for SYS_MMAP via Syscall6, the returned
  address).  Each operation additionally returns the list of kernel
  calls it issued, so that "no kernel call is performed" is a provable
  statement.  The mincore result buffer is filled by the kernel; its
  contents are abstracted by a fill oracle, and the buffer-address
  argument of the mincore call is abstracted as 0 in the recorded call.
- Errors: checkSlice's os.NewError result is the distinguished value
  GoError.regionNotInData; errno-based os.Errno errors are
  GoError.errno.
-/

/-- Linux syscall selector for mmap (amd64). -/
def SYS_MMAP : Nat := 9

/-- Linux syscall selector for mprotect. -/
def SYS_MPROTECT : Nat := 10

/-- Linux syscall selector for munmap. -/
def SYS_MUNMAP : Nat := 11

/-- Linux syscall selector for msync. -/
def SYS_MSYNC : Nat := 26

/-- Linux syscall selector for mincore. -/
def SYS_MINCORE : Nat := 27

/-- Linux syscall selector for madvise. -/
def SYS_MADVISE : Nat := 28

/-- Linux syscall selector for mlock. -/
def SYS_MLOCK : Nat := 149

/-- Linux syscall selector for munlock. -/
def SYS_MUNLOCK : Nat := 150

/-- Linux syscall selector for the page-offset mmap2 call (32-bit ABIs). -/
def SYS_MMAP2 : Nat := 192

/-- The EINVAL errno value returned by the paged mmap adapter. -/
def EINVAL : Nat := 22

/-- Go conversion of a signed integer to uintptr on a w-bit platform:
two's-complement truncation, read unsigned. -/
def toUintptr (w : Nat) (i : Int) : Nat := (i % 2 ^ w).toNat

/-- Go conversion of an int64 to the platform int on a w-bit platform:
two's-complement truncation, read signed. -/
def intTrunc (w : Nat) (i : Int) : Int :=
  (i + 2 ^ (w - 1)) % 2 ^ w - 2 ^ (w - 1)

/-- A Go slice header: the reflect.SliceHeader (Data, Len) pair.
Data is a uintptr, Len a Go int.  Cap always equals Len in this code
and is omitted. -/
structure SliceHeader where
  data : Nat
  len : Int
deriving DecidableEq, Repr

/-- The header of the nil slice. -/
def nilSlice : SliceHeader := ⟨0, 0⟩

/-- The MMap struct of gommap.go: the public Data field and the private
internalData field, each a slice header. -/
structure MMap where
  Data : SliceHeader
  internalData : SliceHeader
deriving DecidableEq, Repr

/-- Errors returned by the package: errno-backed os.Errno values, and
the distinguished os.NewError containment error returned by checkSlice
(whose Go message text is "Region must be a slice of mmap.Data"). -/
inductive GoError where
  | errno : Nat → GoError
  | regionNotInData : GoError
deriving DecidableEq, Repr

/-- A three-argument kernel call as issued through syscall.Syscall:
the trap selector and its three uintptr arguments. -/
structure KernelCall where
  trap : Nat
  a1 : Nat
  a2 : Nat
  a3 : Nat
deriving DecidableEq, Repr

/-- A six-argument kernel call as issued through syscall.Syscall6. -/
structure KernelCall6 where
  trap : Nat
  a1 : Nat
  a2 : Nat
  a3 : Nat
  a4 : Nat
  a5 : Nat
  a6 : Nat
deriving DecidableEq, Repr

/-- checkSlice from gommap.go: compares the candidate region header
against the private internalData header with uintptr arithmetic
(addition wraps modulo 2^w).  Source:
if rh.Data < dh.Data OR rh.Data + uintptr(rh.Len) > dh.Data + uintptr(dh.Len)
then return the containment error, else nil. -/
def checkSlice (w : Nat) (m : MMap) (r : SliceHeader) : Option GoError :=
  if r.data < m.internalData.data ∨
      (r.data + toUintptr w r.len) % 2 ^ w >
        (m.internalData.data + toUintptr w m.internalData.len) % 2 ^ w then
    some GoError.regionNotInData
  else
    none

/-- SyncSlice from gommap.go: validate with checkSlice, then issue
msync(region.Data, region.Len, flags).  Returns (error, state, calls
issued); the method never assigns the receiver's fields, so the state
comes back unchanged. -/
def SyncSlice (w : Nat) (k : KernelCall → Nat) (m : MMap) (r : SliceHeader)
    (flags : Nat) : Option GoError × MMap × List KernelCall :=
  match checkSlice w m r with
  | some err => (some err, m, [])
  | none =>
    let call : KernelCall := ⟨SYS_MSYNC, r.data, toUintptr w r.len, flags⟩
    let errno := k call
    ((if errno ≠ 0 then some (GoError.errno errno) else none), m, [call])

/-- AdviseSlice from gommap.go: validate with checkSlice, then issue
madvise(region.Data, region.Len, advice). -/
def AdviseSlice (w : Nat) (k : KernelCall → Nat) (m : MMap) (r : SliceHeader)
    (advice : Nat) : Option GoError × MMap × List KernelCall :=
  match checkSlice w m r with
  | some err => (some err, m, [])
  | none =>
    let call : KernelCall := ⟨SYS_MADVISE, r.data, toUintptr w r.len, advice⟩
    let errno := k call
    ((if errno ≠ 0 then some (GoError.errno errno) else none), m, [call])

/-- ProtectSlice from gommap.go: validate with checkSlice, then issue
mprotect(region.Data, region.Len, prot). -/
def ProtectSlice (w : Nat) (k : KernelCall → Nat) (m : MMap) (r : SliceHeader)
    (prot : Nat) : Option GoError × MMap × List KernelCall :=
  match checkSlice w m r with
  | some err => (some err, m, [])
  | none =>
    let call : KernelCall := ⟨SYS_MPROTECT, r.data, toUintptr w r.len, prot⟩
    let errno := k call
    ((if errno ≠ 0 then some (GoError.errno errno) else none), m, [call])

/-- LockSlice from gommap.go: validate with checkSlice, then issue
mlock(region.Data, region.Len, 0). -/
def LockSlice (w : Nat) (k : KernelCall → Nat) (m : MMap) (r : SliceHeader) :
    Option GoError × MMap × List KernelCall :=
  match checkSlice w m r with
  | some err => (some err, m, [])
  | none =>
    let call : KernelCall := ⟨SYS_MLOCK, r.data, toUintptr w r.len, 0⟩
    let errno := k call
    ((if errno ≠ 0 then some (GoError.errno errno) else none), m, [call])

/-- UnlockSlice from gommap.go: validate with checkSlice, then issue
munlock(region.Data, region.Len, 0). -/
def UnlockSlice (w : Nat) (k : KernelCall → Nat) (m : MMap) (r : SliceHeader) :
    Option GoError × MMap × List KernelCall :=
  match checkSlice w m r with
  | some err => (some err, m, [])
  | none =>
    let call : KernelCall := ⟨SYS_MUNLOCK, r.data, toUintptr w r.len, 0⟩
    let errno := k call
    ((if errno ≠ 0 then some (GoError.errno errno) else none), m, [call])

/-- UnsafeUnmapSlice from gommap.go: validate with checkSlice, then
issue munmap(region.Data, region.Len, 0).  It does not touch the
receiver's fields. -/
def UnsafeUnmapSlice (w : Nat) (k : KernelCall → Nat) (m : MMap)
    (r : SliceHeader) : Option GoError × MMap × List KernelCall :=
  match checkSlice w m r with
  | some err => (some err, m, [])
  | none =>
    let call : KernelCall := ⟨SYS_MUNMAP, r.data, toUintptr w r.len, 0⟩
    let errno := k call
    ((if errno ≠ 0 then some (GoError.errno errno) else none), m, [call])

/-- InCoreSlice from gommap.go: validate with checkSlice, allocate a
result buffer of (len(region)+pageSize-1)/pageSize bytes, issue
mincore(region.Data, region.Len, buffer-address).  The kernel's writes
into the buffer are abstracted by the fill oracle; the buffer address
is abstracted as 0 in the recorded call.  The Go result pair
(result, err) is the first component; len(region) is the signed Len
read as a Nat (the checkSlice-validated calls of the claims all have a
nonnegative Len, and Go's make would panic on a negative size). -/
def InCoreSlice (w : Nat) (k : KernelCall → Nat) (fill : Nat → Nat)
    (pageSize : Nat) (m : MMap) (r : SliceHeader) :
    (Option (List Nat) × Option GoError) × MMap × List KernelCall :=
  match checkSlice w m r with
  | some err => ((none, some err), m, [])
  | none =>
    let n : Nat := (r.len.toNat + pageSize - 1) / pageSize
    let call : KernelCall := ⟨SYS_MINCORE, r.data, toUintptr w r.len, 0⟩
    let errno := k call
    if errno ≠ 0 then ((none, some (GoError.errno errno)), m, [call])
    else ((some ((List.range n).map fill), none), m, [call])

/-- Sync from gommap.go: delegates to SyncSlice on the full Data view
and DISCARDS the error (the Go method has no return value).  Returns
only the state and the calls issued. -/
def Sync (w : Nat) (k : KernelCall → Nat) (m : MMap) (flags : Nat) :
    MMap × List KernelCall :=
  ((SyncSlice w k m m.Data flags).2.1, (SyncSlice w k m m.Data flags).2.2)

/-- Advise from gommap.go: AdviseSlice on the full Data view. -/
def Advise (w : Nat) (k : KernelCall → Nat) (m : MMap) (advice : Nat) :
    Option GoError × MMap × List KernelCall :=
  AdviseSlice w k m m.Data advice

/-- Protect from gommap.go: ProtectSlice on the full Data view. -/
def Protect (w : Nat) (k : KernelCall → Nat) (m : MMap) (prot : Nat) :
    Option GoError × MMap × List KernelCall :=
  ProtectSlice w k m m.Data prot

/-- Lock from gommap.go: LockSlice on the full Data view. -/
def Lock (w : Nat) (k : KernelCall → Nat) (m : MMap) :
    Option GoError × MMap × List KernelCall :=
  LockSlice w k m m.Data

/-- Unlock from gommap.go: UnlockSlice on the full Data view. -/
def Unlock (w : Nat) (k : KernelCall → Nat) (m : MMap) :
    Option GoError × MMap × List KernelCall :=
  UnlockSlice w k m m.Data

/-- InCore from gommap.go: InCoreSlice on the full Data view. -/
def InCore (w : Nat) (k : KernelCall → Nat) (fill : Nat → Nat)
    (pageSize : Nat) (m : MMap) :
    (Option (List Nat) × Option GoError) × MMap × List KernelCall :=
  InCoreSlice w k fill pageSize m m.Data

/-- UnsafeUnmap from gommap.go: UnsafeUnmapSlice on the full Data view,
then (unconditionally) set internalData and Data to nil. -/
def UnsafeUnmap (w : Nat) (k : KernelCall → Nat) (m : MMap) :
    Option GoError × MMap × List KernelCall :=
  let res := UnsafeUnmapSlice w k m m.Data
  (res.1, ⟨nilSlice, nilSlice⟩, res.2.2)

/-- The result of the fstat syscall: the errno and the Size field of
the returned Stat_t. -/
structure StatT where
  errno : Nat
  size : Int
deriving DecidableEq, Repr

/-- The tail of MapAt from gommap.go once the length is known: issue
mmap(addr, uintptr(length), prot, flags, fd, uintptr(offset)) through
Syscall6; on errno return the error, otherwise build the MMap whose
Data header is (returned address, int(length)) and whose internalData
is set to the same header. -/
def mmapFinish (w : Nat) (k : KernelCall6 → Nat × Nat) (addr : Nat) (fd : Nat)
    (offset length : Int) (prot flags : Nat) :
    Except GoError MMap × List KernelCall6 :=
  let call : KernelCall6 :=
    ⟨SYS_MMAP, addr, toUintptr w length, prot, flags, fd, toUintptr w offset⟩
  let res := k call
  if res.2 ≠ 0 then (Except.error (GoError.errno res.2), [call])
  else
    let hdr : SliceHeader := ⟨res.1, intTrunc w length⟩
    (Except.ok ⟨hdr, hdr⟩, [call])

/-- MapAt from gommap.go: if length is the sentinel -1, query the
descriptor's size with fstat (oracle fstat); a nonzero fstat errno is
returned as the error with nothing else done.  Otherwise proceed with
the (possibly derived) length. -/
def MapAt (w : Nat) (fstat : Nat → StatT) (k : KernelCall6 → Nat × Nat)
    (addr : Nat) (fd : Nat) (offset length : Int) (prot flags : Nat) :
    Except GoError MMap × List KernelCall6 :=
  if length = -1 then
    let st := fstat fd
    if st.errno ≠ 0 then (Except.error (GoError.errno st.errno), [])
    else mmapFinish w k addr fd offset st.size prot flags
  else mmapFinish w k addr fd offset length prot flags

/-- mmap_syscall from mmap_linux_amd64.go: a direct Syscall6 with the
byte offset converted to uintptr and passed through unchanged; no
alignment check. -/
def mmap_syscall_amd64 (k : KernelCall6 → Nat × Nat)
    (addr length prot flags fd : Nat) (offset : Int) :
    (Nat × Nat) × List KernelCall6 :=
  let call : KernelCall6 :=
    ⟨SYS_MMAP, addr, length, prot, flags, fd, toUintptr 64 offset⟩
  (k call, [call])

/-- mmap_syscall from the page-offset architecture file (SYS_MMAP2,
32-bit word): page := uintptr(offset / 4096) with Go's
truncating int64 division; if offset != int64(page)*4096 return
(0, EINVAL) without issuing the call, else issue SYS_MMAP2 with the
page count as the offset argument. -/
def mmap_syscall_paged (w : Nat) (k : KernelCall6 → Nat × Nat)
    (addr length prot flags fd : Nat) (offset : Int) :
    (Nat × Nat) × List KernelCall6 :=
  let page : Nat := toUintptr w (Int.tdiv offset 4096)
  if offset ≠ (page : Int) * 4096 then ((0, EINVAL), [])
  else
    let call : KernelCall6 := ⟨SYS_MMAP2, addr, length, prot, flags, fd, page⟩
    (k call, [call])

/-- Ceiling division as the specification states it: the least n with
L ≤ n * P (for P > 0), written from the spec's words for comparison
with the source's (L + P - 1) / P computation. -/
def ceilDivSpec (L P : Nat) : Nat := L / P + (if L % P = 0 then 0 else 1)

/-- toUintptr is the identity (up to toNat) on values already in range. -/
lemma toUintptr_eq_toNat (w : Nat) (i : Int) (h0 : 0 ≤ i) (h : i.toNat < 2 ^ w) :
    toUintptr w i = i.toNat := by
  unfold toUintptr
  have hlt : i < (2 : Int) ^ w := by
    have h2 : (i.toNat : Int) < ((2 ^ w : Nat) : Int) := by exact_mod_cast h
    rw [Int.toNat_of_nonneg h0] at h2
    push_cast at h2
    exact h2
  rw [Int.emod_eq_of_lt h0 hlt]

/-- checkSlice returns none exactly when the raw wrapped comparison of
its source succeeds. -/
lemma checkSlice_none_iff_raw (w : Nat) (m : MMap) (r : SliceHeader) :
    checkSlice w m r = none ↔
      ¬ (r.data < m.internalData.data ∨
         (r.data + toUintptr w r.len) % 2 ^ w >
           (m.internalData.data + toUintptr w m.internalData.len) % 2 ^ w) := by
  unfold checkSlice
  split
  · simp_all
  · simp_all

/-- Under the no-wraparound side conditions satisfied by real slice
headers, checkSlice acceptance is plain interval containment. -/
lemma checkSlice_none_iff (w : Nat) (m : MMap) (r : SliceHeader)
    (hr0 : 0 ≤ r.len) (hd0 : 0 ≤ m.internalData.len)
    (hr : r.data + r.len.toNat < 2 ^ w)
    (hd : m.internalData.data + m.internalData.len.toNat < 2 ^ w) :
    checkSlice w m r = none ↔
      (m.internalData.data ≤ r.data ∧
        r.data + r.len.toNat ≤ m.internalData.data + m.internalData.len.toNat) := by
  rw [checkSlice_none_iff_raw]
  rw [toUintptr_eq_toNat w r.len hr0 (by omega),
    toUintptr_eq_toNat w m.internalData.len hd0 (by omega)]
  rw [Nat.mod_eq_of_lt hr, Nat.mod_eq_of_lt hd]
  omega

/-- checkSlice can only fail with the containment error. -/
lemma checkSlice_some (w : Nat) (m : MMap) (r : SliceHeader) (e : GoError)
    (h : checkSlice w m r = some e) : e = GoError.regionNotInData := by
  unfold checkSlice at h
  split at h
  · exact (Option.some_inj.mp h).symm
  · exact absurd h (by simp)

/-- Every scoped operation short-circuits on a checkSlice failure:
it returns exactly the containment error, leaves the state unchanged
and issues no kernel call. -/
lemma slice_ops_fail (w : Nat) (k : KernelCall → Nat) (fill : Nat → Nat)
    (pageSize : Nat) (m : MMap) (r : SliceHeader)
    (flags advice prot : Nat) (e : GoError)
    (h : checkSlice w m r = some e) :
    SyncSlice w k m r flags = (some e, m, []) ∧
    AdviseSlice w k m r advice = (some e, m, []) ∧
    ProtectSlice w k m r prot = (some e, m, []) ∧
    LockSlice w k m r = (some e, m, []) ∧
    UnlockSlice w k m r = (some e, m, []) ∧
    InCoreSlice w k fill pageSize m r = ((none, some e), m, []) ∧
    UnsafeUnmapSlice w k m r = (some e, m, []) := by
  refine ⟨?_, ?_, ?_, ?_, ?_, ?_, ?_⟩ <;>
    simp [SyncSlice, AdviseSlice, ProtectSlice, LockSlice, UnlockSlice,
      InCoreSlice, UnsafeUnmapSlice, h]

/-- The result-buffer size n of the source satisfies the
one-byte-per-page bounds: L ≤ n * P < L + P. -/
lemma ceil_bounds (L P : Nat) (hP : 0 < P) :
    L ≤ P * ((L + P - 1) / P) ∧ P * ((L + P - 1) / P) < L + P := by
  have h1 := Nat.div_add_mod (L + P - 1) P
  have h2 : (L + P - 1) % P < P := Nat.mod_lt _ hP
  generalize ht : P * ((L + P - 1) / P) = t at h1 ⊢
  omega

/-- The specification's ceiling division satisfies the same bounds. -/
lemma ceilDivSpec_bounds (L P : Nat) (hP : 0 < P) :
    L ≤ P * ceilDivSpec L P ∧ P * ceilDivSpec L P < L + P := by
  unfold ceilDivSpec
  have hmod := Nat.div_add_mod L P
  have hLP : L % P < P := Nat.mod_lt _ hP
  by_cases hz : L % P = 0
  · rw [if_pos hz, Nat.add_zero]
    generalize ht : P * (L / P) = t at hmod ⊢
    omega
  · rw [if_neg hz, Nat.mul_add, Nat.mul_one]
    generalize ht : P * (L / P) = t at hmod ⊢
    omega

/-- Any two sizes within the one-byte-per-page bounds agree. -/
lemma ceil_unique (L P n1 n2 : Nat)
    (h1a : L ≤ P * n1) (h1b : P * n1 < L + P)
    (h2a : L ≤ P * n2) (h2b : P * n2 < L + P) : n1 = n2 := by
  have ha : n1 < n2 + 1 := by
    apply Nat.lt_of_mul_lt_mul_left (a := P)
    calc P * n1 < L + P := h1b
    _ ≤ P * n2 + P := by omega
    _ = P * (n2 + 1) := by ring
  have hb : n2 < n1 + 1 := by
    apply Nat.lt_of_mul_lt_mul_left (a := P)
    calc P * n2 < L + P := h2b
    _ ≤ P * n1 + P := by omega
    _ = P * (n1 + 1) := by ring
  omega

/-- The source's result-buffer size computation is ceiling division. -/
lemma len_div_eq_ceilDivSpec (L P : Nat) (hP : 0 < P) :
    (L + P - 1) / P = ceilDivSpec L P := by
  have hb := ceil_bounds L P hP
  have hc := ceilDivSpec_bounds L P hP
  exact ceil_unique L P _ _ hb.1 hb.2 hc.1 hc.2

/-- C1: the bounds validator checkSlice accepts a candidate sub-region
(sub_address, sub_length) against the owning region's
(base_address, length) exactly when sub_address >= base_address and
sub_address + sub_length <= base_address + length, for headers whose
address ranges do not wrap the w-bit address space. -/
theorem C1_checkSlice_containment (w : Nat) (m : MMap) (r : SliceHeader)
    (hr0 : 0 ≤ r.len) (hd0 : 0 ≤ m.internalData.len)
    (hr : r.data + r.len.toNat < 2 ^ w)
    (hd : m.internalData.data + m.internalData.len.toNat < 2 ^ w) :
    checkSlice w m r = none ↔
      (m.internalData.data ≤ r.data ∧
        r.data + r.len.toNat ≤ m.internalData.data + m.internalData.len.toNat) :=
  checkSlice_none_iff w m r hr0 hd0 hr hd

/-- C1 witness: the validator accepts the concrete sub-region
(4100, 8) of the region (4096, 16). -/
theorem C1_witness :
    checkSlice 64 ⟨⟨4096, 16⟩, ⟨4096, 16⟩⟩ ⟨4100, 8⟩ = none ↔
      (4096 ≤ 4100 ∧ 4100 + (8 : Int).toNat ≤ 4096 + (16 : Int).toNat) :=
  C1_checkSlice_containment 64 ⟨⟨4096, 16⟩, ⟨4096, 16⟩⟩ ⟨4100, 8⟩
    (by decide) (by decide) (by decide) (by decide)

/-- C2: when the containment check fails, each of the seven scoped
operations returns the containment error immediately, issues no kernel
call, and leaves the state unchanged; all seven consult the same
validator checkSlice. -/
theorem C2_scoped_ops_fail_fast (w : Nat) (k : KernelCall → Nat)
    (fill : Nat → Nat) (pageSize : Nat) (m : MMap) (r : SliceHeader)
    (flags advice prot : Nat) (e : GoError)
    (h : checkSlice w m r = some e) :
    SyncSlice w k m r flags = (some e, m, []) ∧
    AdviseSlice w k m r advice = (some e, m, []) ∧
    ProtectSlice w k m r prot = (some e, m, []) ∧
    LockSlice w k m r = (some e, m, []) ∧
    UnlockSlice w k m r = (some e, m, []) ∧
    InCoreSlice w k fill pageSize m r = ((none, some e), m, []) ∧
    UnsafeUnmapSlice w k m r = (some e, m, []) :=
  slice_ops_fail w k fill pageSize m r flags advice prot e h

/-- C2 witness: the out-of-bounds region (0, 5) of the tests makes all
seven scoped operations fail with the containment error and no kernel
call. -/
theorem C2_witness :
    SyncSlice 64 (fun _ => 0) ⟨⟨4096, 16⟩, ⟨4096, 16⟩⟩ ⟨0, 5⟩ 4 =
      (some GoError.regionNotInData, ⟨⟨4096, 16⟩, ⟨4096, 16⟩⟩, []) ∧
    AdviseSlice 64 (fun _ => 0) ⟨⟨4096, 16⟩, ⟨4096, 16⟩⟩ ⟨0, 5⟩ 1 =
      (some GoError.regionNotInData, ⟨⟨4096, 16⟩, ⟨4096, 16⟩⟩, []) ∧
    ProtectSlice 64 (fun _ => 0) ⟨⟨4096, 16⟩, ⟨4096, 16⟩⟩ ⟨0, 5⟩ 2 =
      (some GoError.regionNotInData, ⟨⟨4096, 16⟩, ⟨4096, 16⟩⟩, []) ∧
    LockSlice 64 (fun _ => 0) ⟨⟨4096, 16⟩, ⟨4096, 16⟩⟩ ⟨0, 5⟩ =
      (some GoError.regionNotInData, ⟨⟨4096, 16⟩, ⟨4096, 16⟩⟩, []) ∧
    UnlockSlice 64 (fun _ => 0) ⟨⟨4096, 16⟩, ⟨4096, 16⟩⟩ ⟨0, 5⟩ =
      (some GoError.regionNotInData, ⟨⟨4096, 16⟩, ⟨4096, 16⟩⟩, []) ∧
    InCoreSlice 64 (fun _ => 0) (fun _ => 0) 4096 ⟨⟨4096, 16⟩, ⟨4096, 16⟩⟩ ⟨0, 5⟩ =
      ((none, some GoError.regionNotInData), ⟨⟨4096, 16⟩, ⟨4096, 16⟩⟩, []) ∧
    UnsafeUnmapSlice 64 (fun _ => 0) ⟨⟨4096, 16⟩, ⟨4096, 16⟩⟩ ⟨0, 5⟩ =
      (some GoError.regionNotInData, ⟨⟨4096, 16⟩, ⟨4096, 16⟩⟩, []) :=
  C2_scoped_ops_fail_fast 64 (fun _ => 0) (fun _ => 0) 4096
    ⟨⟨4096, 16⟩, ⟨4096, 16⟩⟩ ⟨0, 5⟩ 4 1 2 GoError.regionNotInData (by decide)

/-- C3 counterexample: after a successful whole-region unmap of the
concrete region (4096, 16), the whole-region Sync does NOT fail fast:
it passes validation and forwards an msync kernel call on address 0,
length 0, and its underlying scoped call reports no error at all when
the kernel accepts the degenerate call. -/
theorem C3_counterexample :
    (UnsafeUnmap 64 (fun _ => 0) ⟨⟨4096, 16⟩, ⟨4096, 16⟩⟩).1 = none ∧
    (Sync 64 (fun _ => 0)
        (UnsafeUnmap 64 (fun _ => 0) ⟨⟨4096, 16⟩, ⟨4096, 16⟩⟩).2.1 1).2 =
      [⟨SYS_MSYNC, 0, 0, 1⟩] ∧
    (SyncSlice 64 (fun _ => 0)
        (UnsafeUnmap 64 (fun _ => 0) ⟨⟨4096, 16⟩, ⟨4096, 16⟩⟩).2.1
        (UnsafeUnmap 64 (fun _ => 0) ⟨⟨4096, 16⟩, ⟨4096, 16⟩⟩).2.1.Data 1).1 =
      none := by
  decide

/-- C3 amended: a successful whole-region unmap clears both headers to
nil; any subsequent scoped operation on a NONEMPTY sub-region fails
fast with the containment error and issues no kernel call, but
operations applied to the whole (now nil) region view still pass
validation and forward a zero-address, zero-length kernel call rather
than failing fast. -/
theorem C3_amended_post_unmap (w : Nat) (k : KernelCall → Nat)
    (fill : Nat → Nat) (pageSize : Nat) (m : MMap) (r : SliceHeader)
    (flags advice prot : Nat)
    (hr : 0 < r.len) (hbound : r.data + r.len.toNat < 2 ^ w) :
    (UnsafeUnmap w k m).2.1 = ⟨nilSlice, nilSlice⟩ ∧
    (SyncSlice w k (UnsafeUnmap w k m).2.1 r flags =
        (some GoError.regionNotInData, ⟨nilSlice, nilSlice⟩, []) ∧
      AdviseSlice w k (UnsafeUnmap w k m).2.1 r advice =
        (some GoError.regionNotInData, ⟨nilSlice, nilSlice⟩, []) ∧
      ProtectSlice w k (UnsafeUnmap w k m).2.1 r prot =
        (some GoError.regionNotInData, ⟨nilSlice, nilSlice⟩, []) ∧
      LockSlice w k (UnsafeUnmap w k m).2.1 r =
        (some GoError.regionNotInData, ⟨nilSlice, nilSlice⟩, []) ∧
      UnlockSlice w k (UnsafeUnmap w k m).2.1 r =
        (some GoError.regionNotInData, ⟨nilSlice, nilSlice⟩, []) ∧
      InCoreSlice w k fill pageSize (UnsafeUnmap w k m).2.1 r =
        ((none, some GoError.regionNotInData), ⟨nilSlice, nilSlice⟩, []) ∧
      UnsafeUnmapSlice w k (UnsafeUnmap w k m).2.1 r =
        (some GoError.regionNotInData, ⟨nilSlice, nilSlice⟩, [])) ∧
    (Sync w k (UnsafeUnmap w k m).2.1 flags).2 =
      [⟨SYS_MSYNC, 0, 0, flags⟩] := by
  have h0 : toUintptr w 0 = 0 := by simp [toUintptr]
  have hlen : toUintptr w r.len = r.len.toNat :=
    toUintptr_eq_toNat w r.len (by omega) (by omega)
  have hchk : checkSlice w ⟨nilSlice, nilSlice⟩ r = some GoError.regionNotInData := by
    unfold checkSlice nilSlice
    rw [if_pos]
    right
    simp only [hlen, h0, Nat.add_zero, Nat.zero_mod, Nat.mod_eq_of_lt hbound]
    omega
  refine ⟨rfl, ?_, ?_⟩
  · exact slice_ops_fail w k fill pageSize ⟨nilSlice, nilSlice⟩ r
      flags advice prot GoError.regionNotInData hchk
  · show (Sync w k ⟨nilSlice, nilSlice⟩ flags).2 = _
    simp [Sync, SyncSlice, checkSlice, nilSlice, toUintptr]

/-- C3 amended witness: the hypotheses hold for the nonempty saved
sub-region (4096, 16) after unmapping the region (4096, 16), and the
scoped sync on it fails fast with the containment error. -/
theorem C3_amended_witness :
    0 < (16 : Int) ∧ 4096 + (16 : Int).toNat < 2 ^ 64 ∧
    SyncSlice 64 (fun _ => 0)
        (UnsafeUnmap 64 (fun _ => 0) ⟨⟨4096, 16⟩, ⟨4096, 16⟩⟩).2.1 ⟨4096, 16⟩ 1 =
      (some GoError.regionNotInData, ⟨nilSlice, nilSlice⟩, []) :=
  ⟨by decide, by decide,
    (C3_amended_post_unmap 64 (fun _ => 0) (fun _ => 0) 4096
      ⟨⟨4096, 16⟩, ⟨4096, 16⟩⟩ ⟨4096, 16⟩ 1 2 3 (by decide) (by decide)).2.1.1⟩

/-- C4: on the page-offset architecture the adapter converts the byte
offset to a page count and fails with EINVAL, issuing no kernel call,
whenever the byte offset is not an exact multiple of the 4096-byte
page size; on amd64 the byte offset is passed through to the kernel
unchanged — one call is always issued with the offset as given and no
alignment check is made. -/
theorem C4_offset_alignment (w : Nat) (k : KernelCall6 → Nat × Nat)
    (addr length prot flags fd : Nat) (offset : Int) :
    (¬ (4096 : Int) ∣ offset →
      mmap_syscall_paged w k addr length prot flags fd offset =
        ((0, EINVAL), [])) ∧
    (0 ≤ offset → offset.toNat < 2 ^ 64 →
      mmap_syscall_amd64 k addr length prot flags fd offset =
        (k ⟨SYS_MMAP, addr, length, prot, flags, fd, offset.toNat⟩,
          [⟨SYS_MMAP, addr, length, prot, flags, fd, offset.toNat⟩])) := by
  constructor
  · intro hdvd
    have hne : offset ≠
        ((toUintptr w (Int.tdiv offset 4096) : Nat) : Int) * 4096 := by
      intro heq
      exact hdvd ⟨(toUintptr w (Int.tdiv offset 4096) : Int),
        heq.trans (mul_comm _ _)⟩
    simp only [mmap_syscall_paged]
    rw [if_pos hne]
  · intro h0 h1
    simp only [mmap_syscall_amd64]
    rw [toUintptr_eq_toNat 64 offset h0 h1]

/-- C4 witness: the unaligned byte offset 5 is rejected with EINVAL and
no call on the paged architecture, and passed through on amd64. -/
theorem C4_witness :
    ¬ (4096 : Int) ∣ (5 : Int) ∧
    mmap_syscall_paged 32 (fun _ => (0, 0)) 0 4096 3 2 7 5 = ((0, EINVAL), []) ∧
    mmap_syscall_amd64 (fun _ => (0, 0)) 0 4096 3 2 7 5 =
      ((0, 0), [⟨SYS_MMAP, 0, 4096, 3, 2, 7, (5 : Int).toNat⟩]) :=
  ⟨by omega,
    (C4_offset_alignment 32 (fun _ => (0, 0)) 0 4096 3 2 7 5).1 (by omega),
    (C4_offset_alignment 32 (fun _ => (0, 0)) 0 4096 3 2 7 5).2
      (by decide) (by decide)⟩

/-- C5: when MapAt receives the sentinel length -1 and the fstat size
query fails, creation returns exactly the fstat errno as the error and
issues no mapping syscall, so no region is produced. -/
theorem C5_fstat_failure (w : Nat) (fstat : Nat → StatT)
    (k : KernelCall6 → Nat × Nat) (addr fd : Nat) (offset : Int)
    (prot flags : Nat) (h : (fstat fd).errno ≠ 0) :
    MapAt w fstat k addr fd offset (-1) prot flags =
      (Except.error (GoError.errno (fstat fd).errno), []) := by
  simp [MapAt, h]

/-- C5 witness: a fstat oracle failing with errno 5 makes MapAt with
length -1 fail with errno 5 and an empty kernel trace. -/
theorem C5_witness :
    MapAt 64 (fun _ => ⟨5, 0⟩) (fun _ => (4096, 0)) 0 3 0 (-1) 1 2 =
      (Except.error (GoError.errno 5), []) :=
  C5_fstat_failure 64 (fun _ => ⟨5, 0⟩) (fun _ => (4096, 0)) 0 3 0 1 2 (by decide)

/-- C6 counterexample: with a kernel reporting errno 5, the scoped
SyncSlice on the full Data view returns that error, but the
whole-region Sync returns nothing at all — the Go method has no return
value and discards the error — so Sync does not return the same result
as its scoped form. -/
theorem C6_counterexample :
    (SyncSlice 64 (fun _ => 5) ⟨⟨4096, 16⟩, ⟨4096, 16⟩⟩ ⟨4096, 16⟩ 1).1 =
      some (GoError.errno 5) ∧
    Sync 64 (fun _ => 5) ⟨⟨4096, 16⟩, ⟨4096, 16⟩⟩ 1 =
      (⟨⟨4096, 16⟩, ⟨4096, 16⟩⟩, [⟨SYS_MSYNC, 4096, 16, 1⟩]) := by
  decide

/-- C6 amended: every whole-region operation delegates to the
corresponding scoped operation applied to the full Data view and,
except for Sync — which discards the scoped operation's error and
returns nothing — returns the same result; UnsafeUnmap additionally
clears both headers. -/
theorem C6_amended_whole_delegates (w : Nat) (k : KernelCall → Nat)
    (fill : Nat → Nat) (pageSize : Nat) (m : MMap) (flags advice prot : Nat) :
    Sync w k m flags =
      ((SyncSlice w k m m.Data flags).2.1, (SyncSlice w k m m.Data flags).2.2) ∧
    Advise w k m advice = AdviseSlice w k m m.Data advice ∧
    Protect w k m prot = ProtectSlice w k m m.Data prot ∧
    Lock w k m = LockSlice w k m m.Data ∧
    Unlock w k m = UnlockSlice w k m m.Data ∧
    InCore w k fill pageSize m = InCoreSlice w k fill pageSize m m.Data ∧
    UnsafeUnmap w k m =
      ((UnsafeUnmapSlice w k m m.Data).1, ⟨nilSlice, nilSlice⟩,
        (UnsafeUnmapSlice w k m m.Data).2.2) :=
  ⟨rfl, rfl, rfl, rfl, rfl, rfl, rfl⟩

/-- C7: a validated sub-region unmap forwards exactly one munmap
kernel call and leaves the MMap state — both the Data and internalData
fields — entirely unchanged, while the whole-region UnsafeUnmap clears
both fields to nil. -/
theorem C7_subregion_unmap_frame (w : Nat) (k : KernelCall → Nat)
    (m : MMap) (r : SliceHeader) (h : checkSlice w m r = none) :
    (UnsafeUnmapSlice w k m r).2.1 = m ∧
    (UnsafeUnmapSlice w k m r).2.2 =
      [⟨SYS_MUNMAP, r.data, toUintptr w r.len, 0⟩] ∧
    (UnsafeUnmap w k m).2.1.Data = nilSlice ∧
    (UnsafeUnmap w k m).2.1.internalData = nilSlice := by
  refine ⟨?_, ?_, rfl, rfl⟩ <;> simp [UnsafeUnmapSlice, h]

/-- C7 witness: unmapping the proper sub-slice (4096, 8) of the region
(4096, 16) leaves the state unchanged. -/
theorem C7_witness :
    checkSlice 64 ⟨⟨4096, 16⟩, ⟨4096, 16⟩⟩ ⟨4096, 8⟩ = none ∧
    (UnsafeUnmapSlice 64 (fun _ => 0) ⟨⟨4096, 16⟩, ⟨4096, 16⟩⟩ ⟨4096, 8⟩).2.1 =
      ⟨⟨4096, 16⟩, ⟨4096, 16⟩⟩ :=
  ⟨by decide,
    (C7_subregion_unmap_frame 64 (fun _ => 0) ⟨⟨4096, 16⟩, ⟨4096, 16⟩⟩
      ⟨4096, 8⟩ (by decide)).1⟩

/-- C8: for a valid scope of length L and page size P > 0, the
residency query succeeds (when the kernel accepts the call) with a
result buffer of exactly ceil(L / P) bytes — bounded by one byte per
page of the scope: L <= P * size < L + P. -/
theorem C8_incore_buffer_size (w : Nat) (k : KernelCall → Nat)
    (fill : Nat → Nat) (pageSize : Nat) (m : MMap) (r : SliceHeader)
    (hchk : checkSlice w m r = none) (hP : 0 < pageSize)
    (hk : k ⟨SYS_MINCORE, r.data, toUintptr w r.len, 0⟩ = 0) :
    ∃ buf, (InCoreSlice w k fill pageSize m r).1 = (some buf, none) ∧
      buf.length = ceilDivSpec r.len.toNat pageSize ∧
      r.len.toNat ≤ pageSize * buf.length ∧
      pageSize * buf.length < r.len.toNat + pageSize := by
  refine ⟨(List.range ((r.len.toNat + pageSize - 1) / pageSize)).map fill,
    ?_, ?_, ?_, ?_⟩
  · simp [InCoreSlice, hchk, hk]
  · simp [len_div_eq_ceilDivSpec _ _ hP]
  · simpa using (ceil_bounds r.len.toNat pageSize hP).1
  · simpa using (ceil_bounds r.len.toNat pageSize hP).2

/-- C8 witness: querying the whole 16-byte region with a 4096-byte
page size yields a one-byte result buffer. -/
theorem C8_witness :
    checkSlice 64 ⟨⟨4096, 16⟩, ⟨4096, 16⟩⟩ ⟨4096, 16⟩ = none ∧
    ∃ buf,
      (InCoreSlice 64 (fun _ => 0) (fun _ => 1) 4096
          ⟨⟨4096, 16⟩, ⟨4096, 16⟩⟩ ⟨4096, 16⟩).1 = (some buf, none) ∧
      buf.length = ceilDivSpec (16 : Int).toNat 4096 ∧
      (16 : Int).toNat ≤ 4096 * buf.length ∧
      4096 * buf.length < (16 : Int).toNat + 4096 :=
  ⟨by decide,
    C8_incore_buffer_size 64 (fun _ => 0) (fun _ => 1) 4096
      ⟨⟨4096, 16⟩, ⟨4096, 16⟩⟩ ⟨4096, 16⟩ (by decide) (by decide) (by decide)⟩

/-- C9: checkSlice reads only the private internalData header — the
public Data field is never consulted, so replacing Data leaves every
validation outcome unchanged — and no operation other than the
whole-region UnsafeUnmap changes internalData. -/
theorem C9_internalData_invariant :
    (∀ (w : Nat) (d d2 intd r : SliceHeader),
      checkSlice w ⟨d, intd⟩ r = checkSlice w ⟨d2, intd⟩ r) ∧
    (∀ (w : Nat) (k : KernelCall → Nat) (m : MMap) (r : SliceHeader)
        (flags : Nat),
      (SyncSlice w k m r flags).2.1.internalData = m.internalData) ∧
    (∀ (w : Nat) (k : KernelCall → Nat) (m : MMap) (r : SliceHeader)
        (advice : Nat),
      (AdviseSlice w k m r advice).2.1.internalData = m.internalData) ∧
    (∀ (w : Nat) (k : KernelCall → Nat) (m : MMap) (r : SliceHeader)
        (prot : Nat),
      (ProtectSlice w k m r prot).2.1.internalData = m.internalData) ∧
    (∀ (w : Nat) (k : KernelCall → Nat) (m : MMap) (r : SliceHeader),
      (LockSlice w k m r).2.1.internalData = m.internalData) ∧
    (∀ (w : Nat) (k : KernelCall → Nat) (m : MMap) (r : SliceHeader),
      (UnlockSlice w k m r).2.1.internalData = m.internalData) ∧
    (∀ (w : Nat) (k : KernelCall → Nat) (fill : Nat → Nat) (ps : Nat)
        (m : MMap) (r : SliceHeader),
      (InCoreSlice w k fill ps m r).2.1.internalData = m.internalData) ∧
    (∀ (w : Nat) (k : KernelCall → Nat) (m : MMap) (r : SliceHeader),
      (UnsafeUnmapSlice w k m r).2.1.internalData = m.internalData) ∧
    (∀ (w : Nat) (k : KernelCall → Nat) (m : MMap) (flags : Nat),
      (Sync w k m flags).1.internalData = m.internalData) ∧
    (∀ (w : Nat) (k : KernelCall → Nat) (m : MMap) (advice : Nat),
      (Advise w k m advice).2.1.internalData = m.internalData) ∧
    (∀ (w : Nat) (k : KernelCall → Nat) (m : MMap) (prot : Nat),
      (Protect w k m prot).2.1.internalData = m.internalData) ∧
    (∀ (w : Nat) (k : KernelCall → Nat) (m : MMap),
      (Lock w k m).2.1.internalData = m.internalData) ∧
    (∀ (w : Nat) (k : KernelCall → Nat) (m : MMap),
      (Unlock w k m).2.1.internalData = m.internalData) ∧
    (∀ (w : Nat) (k : KernelCall → Nat) (fill : Nat → Nat) (ps : Nat)
        (m : MMap),
      (InCore w k fill ps m).2.1.internalData = m.internalData) := by
  refine ⟨fun w d d2 intd r => rfl, ?_, ?_, ?_, ?_, ?_, ?_, ?_, ?_, ?_, ?_,
    ?_, ?_, ?_⟩
  · intro w k m r flags
    cases h : checkSlice w m r <;> simp [SyncSlice, h]
  · intro w k m r advice
    cases h : checkSlice w m r <;> simp [AdviseSlice, h]
  · intro w k m r prot
    cases h : checkSlice w m r <;> simp [ProtectSlice, h]
  · intro w k m r
    cases h : checkSlice w m r <;> simp [LockSlice, h]
  · intro w k m r
    cases h : checkSlice w m r <;> simp [UnlockSlice, h]
  · intro w k fill ps m r
    cases h : checkSlice w m r
    · simp only [InCoreSlice, h]
      split <;> rfl
    · simp [InCoreSlice, h]
  · intro w k m r
    cases h : checkSlice w m r <;> simp [UnsafeUnmapSlice, h]
  · intro w k m flags
    cases h : checkSlice w m m.Data <;> simp [Sync, SyncSlice, h]
  · intro w k m advice
    cases h : checkSlice w m m.Data <;> simp [Advise, AdviseSlice, h]
  · intro w k m prot
    cases h : checkSlice w m m.Data <;> simp [Protect, ProtectSlice, h]
  · intro w k m
    cases h : checkSlice w m m.Data <;> simp [Lock, LockSlice, h]
  · intro w k m
    cases h : checkSlice w m m.Data <;> simp [Unlock, UnlockSlice, h]
  · intro w k fill ps m
    cases h : checkSlice w m m.Data
    · simp only [InCore, InCoreSlice, h]
      split <;> rfl
    · simp [InCore, InCoreSlice, h]

/-- C10: MapAt stores int(length) — the two's-complement truncation of
the 64-bit length to the platform's w-bit int — as the buffer length,
so a length at or above 2^(w-1) yields a buffer length congruent to
the request modulo 2^w but different from the requested byte count. -/
theorem C10_length_truncation (w : Nat) (fstat : Nat → StatT)
    (k : KernelCall6 → Nat × Nat) (addr fd : Nat) (offset length : Int)
    (prot flags : Nat) (m : MMap) (hw : 0 < w)
    (hlen : (2 : Int) ^ (w - 1) ≤ length)
    (hok : (MapAt w fstat k addr fd offset length prot flags).1 =
      Except.ok m) :
    m.Data.len = intTrunc w length ∧
    m.Data.len % 2 ^ w = length % 2 ^ w ∧
    m.Data.len ≠ length := by
  have hpos : (0 : Int) < 2 ^ (w - 1) := by positivity
  have hne : length ≠ -1 := by omega
  have hNH : (2 : Int) ^ w = 2 * 2 ^ (w - 1) := by
    conv_lhs => rw [show w = (w - 1) + 1 from by omega]
    rw [pow_succ, mul_comm]
  have hDlen : m.Data.len = intTrunc w length := by
    simp only [MapAt, if_neg hne, mmapFinish] at hok
    split at hok
    · exact absurd hok (by simp)
    · rw [Except.ok.injEq] at hok
      rw [← hok]
  refine ⟨hDlen, ?_, ?_⟩
  · rw [hDlen]
    unfold intTrunc
    rw [Int.sub_emod ((length + 2 ^ (w - 1)) % 2 ^ w) (2 ^ (w - 1)) (2 ^ w),
      Int.emod_emod_of_dvd _ dvd_rfl, ← Int.sub_emod, Int.add_sub_cancel]
  · rw [hDlen]
    unfold intTrunc
    have h1 : 0 ≤ (length + 2 ^ (w - 1)) % 2 ^ w :=
      Int.emod_nonneg _ (by positivity)
    have h2 : (length + 2 ^ (w - 1)) % 2 ^ w < 2 ^ w :=
      Int.emod_lt_of_pos _ (by positivity)
    omega

/-- C10 witness: with 32-bit platform ints, the requested length 2^31
is stored as the truncated buffer length -2^31, not the requested byte
count. -/
theorem C10_witness :
    (MapAt 32 (fun _ => ⟨0, 0⟩) (fun _ => (4096, 0)) 0 3 0 (2 ^ 31) 1 2).1 =
      Except.ok ⟨⟨4096, -(2 ^ 31)⟩, ⟨4096, -(2 ^ 31)⟩⟩ ∧
    (⟨⟨4096, -(2 ^ 31)⟩, ⟨4096, -(2 ^ 31)⟩⟩ : MMap).Data.len ≠ (2 ^ 31 : Int) :=
  ⟨by rfl,
    (C10_length_truncation 32 (fun _ => ⟨0, 0⟩) (fun _ => (4096, 0)) 0 3 0
      (2 ^ 31) 1 2 ⟨⟨4096, -(2 ^ 31)⟩, ⟨4096, -(2 ^ 31)⟩⟩ (by decide)
      (by decide) (by rfl)).2.2⟩
